import Mathlib

/-!
Shallow embedding of the inference gateway in `src/app.py` (Flask app):
the model registry (`_ensure_model_loaded`), the audit-log append
(`_append_rows`), request image extraction (`_read_image_bytes`), the
`/detect` handler (`detect`), the `/csv` tail view (`csv_view`) and the
`/logs/detections.csv` export (`csv_download`).

External collaborators (filesystem, the YOLO loader, `cv2.imdecode`,
`model.predict`, the results-parsing API, the wall clock) are modelled as
function fields of an `Env` record; the gateway code itself is translated
directly.  Python floats on the resize path are modelled as exact rational
arithmetic with `int()` truncation as `Nat` floor division.
-/

namespace UmiNoMe

/-- Raw bytes of a request payload (one `Nat` per byte). -/
abbrev Bytes := List Nat

/-- A decoded pixel matrix, abstracted to its dimensions (`img.shape[:2]` is
all the gateway itself inspects; pixel contents only flow into the opaque
detector). -/
structure Image where
  width : Nat
  height : Nat
deriving DecidableEq, Repr

/-- One normalized detection, as built by the parse loop of `detect`
(src/app.py lines 171-178): integer class id, confidence, and the
`xyxy` bbox coordinate list. -/
structure Detection where
  class_id : Int
  confidence : ℚ
  bbox : List ℚ
deriving DecidableEq, Repr

/-- One row of the audit store `logs/detections.csv`: a capture timestamp
(successive wall-clock readings are modelled as naturals) plus the
detection fields, in the column order written by `_append_rows`. -/
structure AuditRow where
  time : Nat
  class_id : Int
  confidence : ℚ
  bbox : List ℚ
deriving DecidableEq, Repr

/-- The registry's mutable globals `model` and `_loaded_path`
(src/app.py lines 41-42).  A model handle is abstracted to a `Nat`. -/
structure RegState where
  model : Option Nat
  loadedPath : Option String
deriving DecidableEq, Repr

/-- Raw detector output (the `results` object), abstracted: the parse loop
consumes it only through the `Env.extract` collaborator. -/
abbrev RawResults := List (Int × ℚ × List ℚ)

/-- External collaborators and process configuration.
`pathExists` models `os.path.exists`; `loadModel` models the
`YOLO(target_path)` constructor (`none` = it raised); `imdecode` models
`cv2.imdecode` (`none` = decode failure); `predict` models
`model.predict` (`.error` = it raised); `extract` models the
`r.boxes` parse loop (`.error` = it raised); `clock n` is the value of
the n-th `datetime.datetime.now()` call made by the process; `modelMap`
and `defaultPath` model `MODEL_MAP` and `MODEL_PATH`. -/
structure Env where
  pathExists : String → Bool
  loadModel : String → Option Nat
  imdecode : Bytes → Option Image
  predict : Nat → Image → Except Unit RawResults
  extract : RawResults → Except Unit (List Detection)
  clock : Nat → Nat
  modelMap : List (String × String)
  defaultPath : String

/-! ### ModelRegistry -/

/-- The double-checked-locking cache test
`model is not None and _loaded_path == target_path` (lines 51 and 57). -/
def cacheHit (st : RegState) (p : String) : Bool :=
  st.model.isSome && st.loadedPath == some p

/-- Result of one `_ensure_model_loaded` call, instrumented with the number
of loader invocations (`YOLO(...)` constructor calls, a load-count
collaborator) and of `_model_lock` acquisitions. -/
structure EnsureResult where
  ok : Bool
  state : RegState
  loads : Nat
  lockAcquires : Nat
deriving DecidableEq, Repr

/-- Model of `_ensure_model_loaded` (src/app.py lines 46-75), sequential
semantics: fast-path cache check, `os.path.exists` check, re-check under
`_model_lock`, then the actual load; a loader exception clears both
globals (lines 73-74), while the missing-path branch (lines 53-55)
returns `False` leaving the cached state untouched. -/
def ensureModelLoaded (env : Env) (st : RegState) (p : String) : EnsureResult :=
  if cacheHit st p then
    { ok := true, state := st, loads := 0, lockAcquires := 0 }
  else if env.pathExists p = false then
    { ok := false, state := st, loads := 0, lockAcquires := 0 }
  else if cacheHit st p then
    { ok := true, state := st, loads := 0, lockAcquires := 1 }
  else
    match env.loadModel p with
    | some h =>
        { ok := true, state := { model := some h, loadedPath := some p },
          loads := 1, lockAcquires := 1 }
    | none =>
        { ok := false, state := { model := none, loadedPath := none },
          loads := 1, lockAcquires := 1 }

/-- Model of `_resolve_model_path` (lines 105-110): a truthy request
parameter found in `MODEL_MAP` resolves through the alias table,
anything else falls back to `MODEL_PATH`. -/
def resolveModelPath (env : Env) (modelParam : Option String) : String :=
  match modelParam with
  | some name =>
      if name ≠ "" then
        match env.modelMap.find? (fun kv => kv.1 == name) with
        | some kv => kv.2
        | none => env.defaultPath
      else env.defaultPath
  | none => env.defaultPath

/-! ### AuditLog append -/

/-- The row written for one detection by `_append_rows`
(lines 86-89): `[now().isoformat(), class_id, confidence, *bbox]`. -/
def stampRow (t : Nat) (d : Detection) : AuditRow :=
  { time := t, class_id := d.class_id, confidence := d.confidence, bbox := d.bbox }

/-- Model of `_append_rows` (lines 82-89).  The loop calls
`datetime.datetime.now()` once per row, so row i of the batch is stamped
with the (tick + i)-th clock reading; returns the grown store and the
clock tick after the batch. -/
def appendRows (clock : Nat → Nat) (tick : Nat) (store : List AuditRow) :
    List Detection → List AuditRow × Nat
  | [] => (store, tick)
  | d :: rest => appendRows clock (tick + 1) (store ++ [stampRow (clock tick) d]) rest

/-! ### Base64 and request image extraction -/

/-- Value of a base64 alphabet character (by code point: A-Z, a-z, 0-9,
plus, slash), `none` for anything else. -/
def b64val (c : Char) : Option Nat :=
  if 65 ≤ c.toNat ∧ c.toNat ≤ 90 then some (c.toNat - 65)
  else if 97 ≤ c.toNat ∧ c.toNat ≤ 122 then some (c.toNat - 71)
  else if 48 ≤ c.toNat ∧ c.toNat ≤ 57 then some (c.toNat + 4)
  else if c.toNat = 43 then some 62
  else if c.toNat = 47 then some 63
  else none

/-- Whether a character is the base64 padding character (code point 61). -/
def isPad (c : Char) : Bool := c.toNat = 61

/-- Decode one 4-character base64 group: 2, 3 or 4 data characters followed
only by padding yield 1, 2 or 3 bytes; anything else is malformed. -/
def decodeQuad (q : List Char) : Option Bytes :=
  let ds := (q.takeWhile fun c => (b64val c).isSome).filterMap b64val
  if (q.drop ds.length).all isPad then
    match ds with
    | [a, b, c, d] => some [a * 4 + b / 16, b % 16 * 16 + c / 4, c % 4 * 64 + d]
    | [a, b, c] => some [a * 4 + b / 16, b % 16 * 16 + c / 4]
    | [a, b] => some [a * 4 + b / 16]
    | _ => none
  else none

/-- Decode a filtered base64 character stream in 4-character groups; a
trailing group of fewer than 4 characters is malformed. -/
def decodeQuads : List Char → Option Bytes
  | [] => some []
  | c1 :: c2 :: c3 :: c4 :: rest =>
      match decodeQuad [c1, c2, c3, c4], decodeQuads rest with
      | some bs, some rest2 => some (bs ++ rest2)
      | _, _ => none
  | _ => none

/-- Model of Python `base64.b64decode` in its default lenient mode:
characters outside the alphabet and padding are discarded first; `none`
models the `binascii.Error` raised when the remaining stream is not
well-formed groups of 4 (e.g. wrong padding length). -/
def b64decode (cs : List Char) : Option Bytes :=
  decodeQuads (cs.filter fun c => (b64val c).isSome || isPad c)

/-- The first occurrence of `sep` in a character list, returning what
follows it: `some` exactly when Python `sep in s` holds, with the value
of `s.split(sep, 1)[1]`. -/
def splitAfterMarker (sep : List Char) : List Char → Option (List Char)
  | [] => none
  | c :: rest =>
      if sep.isPrefixOf (c :: rest) then some ((c :: rest).drop sep.length)
      else splitAfterMarker sep rest

/-- The marker `"base64,"` used by `_read_image_bytes`. -/
def base64Marker : List Char := "base64,".toList

/-- A parsed incoming `/detect` request: multipart file fields with their
byte contents, whether the body is JSON, the JSON `frame` value when it
is a string (`none` covers both an absent and a non-string `frame`), and
the `model` query/form parameter. -/
structure HttpRequest where
  files : List (String × Bytes)
  isJson : Bool
  frame : Option String
  modelParam : Option String

/-- Contents of a named multipart file field, if present. -/
def lookupFile (req : HttpRequest) (name : String) : Option Bytes :=
  (req.files.find? fun kv => kv.1 == name).map fun kv => kv.2

/-- Model of `_read_image_bytes` (lines 92-103): the `image` field, else the
`file` field, else a JSON `frame` data URL decoded after the `"base64,"`
marker.  `.error ()` models the uncaught `binascii.Error` that
`base64.b64decode` raises on a malformed payload.  FileStorage truthiness
in `files.get("image") or files.get("file")` is modelled as field
presence. -/
def readImageBytes (req : HttpRequest) : Except Unit (Option Bytes) :=
  if (lookupFile req "image").isSome || (lookupFile req "file").isSome then
    .ok (some ((lookupFile req "image").getD ((lookupFile req "file").getD [])))
  else if req.isJson then
    match req.frame with
    | some s =>
        match splitAfterMarker base64Marker s.toList with
        | some rest =>
            match b64decode rest with
            | some bs => .ok (some bs)
            | none => .error ()
        | none => .ok none
    | none => .ok none
  else .ok none

/-- A request with its image content removed — no multipart fields, no JSON
body — keeping the model-selection parameter.  Used to compare a
zero-byte upload against a request with no image at all. -/
def stripImage (req : HttpRequest) : HttpRequest :=
  { files := [], isJson := false, frame := none, modelParam := req.modelParam }

/-! ### ImagePreprocessor -/

/-- Model of the width-bounding step of `detect` (lines 146-151):
`if w > 480: resize to (480, int(h * (480 / w)))`.  The float
computation `int(h * scale)` is modelled as exact rational scaling
truncated toward zero, i.e. `Nat` floor division `h * 480 / w`. -/
def boundWidth (img : Image) : Image :=
  if 480 < img.width then { width := 480, height := img.height * 480 / img.width }
  else img

/-! ### DetectionPipeline: the /detect handler -/

/-- The JSON response of the `/detect` route, one constructor per exit
path of the handler; `internalError` is an exception escaping the
handler body (Flask then produces a 500 response). -/
inductive DetectResponse where
  | busy
  | modelUnavailable (path : String)
  | noImage
  | decodeFailed
  | inferenceFailed
  | parseFailed
  | internalError
  | success (dets : List Detection)
deriving DecidableEq, Repr

/-- HTTP status code of each `/detect` outcome (lines 129-185 plus Flask's
500 for an uncaught exception). -/
def statusOf : DetectResponse → Nat
  | .busy => 429
  | .modelUnavailable _ => 503
  | .noImage => 400
  | .decodeFailed => 400
  | .inferenceFailed => 500
  | .parseFailed => 500
  | .internalError => 500
  | .success _ => 200

/-- Process state seen by one `/detect` request: the registry globals, the
`_infer_lock` gate (`gateBusy = false` is the spec's `Idle`), the audit
store contents, and the wall-clock tick counter. -/
structure ServerState where
  reg : RegState
  gateBusy : Bool
  store : List AuditRow
  tick : Nat
deriving DecidableEq, Repr

/-- Result of one `/detect` request: response, post-state, and the number
of `cv2.imdecode` invocations made (decoder instrumentation). -/
structure StepResult where
  resp : DetectResponse
  state : ServerState
  decodeCalls : Nat
deriving DecidableEq, Repr

/-- Body of the `detect` handler — the region inside `try:` (lines
130-185), entered with the gate held: resolve the model path, ensure the
model is loaded (503), extract image bytes (uncaught `binascii.Error`
propagates), falsiness test `if not img_bytes` (400), decode (400),
bound width, `model.predict` on the cached global handle (500 on raise,
including `model is None`), parse results (500), append a non-empty
detection batch, return the list. -/
def detectBody (env : Env) (req : HttpRequest) (st : ServerState) : StepResult :=
  let p := resolveModelPath env req.modelParam
  let er := ensureModelLoaded env st.reg p
  let st1 : ServerState := { st with reg := er.state }
  if er.ok = false then { resp := .modelUnavailable p, state := st1, decodeCalls := 0 }
  else
    match readImageBytes req with
    | .error _ => { resp := .internalError, state := st1, decodeCalls := 0 }
    | .ok none => { resp := .noImage, state := st1, decodeCalls := 0 }
    | .ok (some bs) =>
      if bs.isEmpty then { resp := .noImage, state := st1, decodeCalls := 0 }
      else
        match env.imdecode bs with
        | none => { resp := .decodeFailed, state := st1, decodeCalls := 1 }
        | some img =>
          match st1.reg.model with
          | none => { resp := .inferenceFailed, state := st1, decodeCalls := 1 }
          | some h =>
            match env.predict h (boundWidth img) with
            | .error _ => { resp := .inferenceFailed, state := st1, decodeCalls := 1 }
            | .ok raw =>
              match env.extract raw with
              | .error _ => { resp := .parseFailed, state := st1, decodeCalls := 1 }
              | .ok dets =>
                if dets.isEmpty then { resp := .success dets, state := st1, decodeCalls := 1 }
                else
                  let ap := appendRows env.clock st1.tick st1.store dets
                  { resp := .success dets,
                    state := { st1 with store := ap.1, tick := ap.2 },
                    decodeCalls := 1 }

/-- The `detect` route (lines 125-187): `_infer_lock.acquire(blocking
= False)` rejects with busy/429 when the gate is held; otherwise the body
runs with the gate held and the `finally:` clause releases the gate on
every outcome, normal or exceptional. -/
def detect (env : Env) (req : HttpRequest) (st : ServerState) : StepResult :=
  if st.gateBusy then { resp := .busy, state := st, decodeCalls := 0 }
  else
    let r := detectBody env req { st with gateBusy := true }
    { r with state := { r.state with gateBusy := false } }

/-! ### AuditLog views -/

/-- Model of a `collections.deque(maxlen = n)` append: add on the right,
discard from the left once over capacity. -/
def dequePush (n : Nat) (d : List α) (x : α) : List α :=
  let d2 := d ++ [x]
  if n < d2.length then d2.drop (d2.length - n) else d2

/-- Row selection of the `/csv` view `csv_view` (lines 189-210): every row
of the store is read in order and pushed through a deque bounded at
200. -/
def csvViewRows (store : List AuditRow) : List AuditRow :=
  store.foldl (dequePush 200) []

/-- The header row synthesized by `csv_download` (line 217). -/
def headerRow : List String :=
  ["time", "class_id", "confidence", "x1", "y1", "x2", "y2"]

/-- Textual form of one stored row, column order as written by
`_append_rows`. -/
def serializeRow (r : AuditRow) : List String :=
  [toString r.time, toString r.class_id, toString r.confidence] ++ r.bbox.map toString

/-- Model of `csv_download` (lines 212-221): `none` is an absent store file
(`os.path.exists` false), for which a header-only table is synthesized;
an existing file is sent verbatim via `send_file` — its rows and nothing
else (appends never write a header row). -/
def csvDownload (store : Option (List AuditRow)) : List (List String) :=
  match store with
  | none => [headerRow]
  | some rows => rows.map serializeRow

/-! ### Concrete fixtures used by witnesses and counterexamples -/

/-- Fixture detection (the spec's 600×400 scenario object). -/
def det1 : Detection := { class_id := 1, confidence := 9 / 10, bbox := [10, 10, 50, 50] }

/-- Second fixture detection. -/
def det2 : Detection := { class_id := 2, confidence := 1 / 2, bbox := [1, 2, 3, 4] }

/-- Fixture environment in which everything succeeds: the model file
exists, the loader returns handle 7, any non-empty byte string decodes
to a 600×400 image, inference parses to `[det1, det2]`, and the wall
clock ticks once per reading. -/
def envOk : Env :=
  { pathExists := fun _ => true
    loadModel := fun _ => some 7
    imdecode := fun bs => if bs.isEmpty then none else some { width := 600, height := 400 }
    predict := fun _ _ => .ok []
    extract := fun _ => .ok [det1, det2]
    clock := fun n => n
    modelMap := [("best", "models/best.pt")]
    defaultPath := "models/best.pt" }

/-- Fixture environment whose model path does not exist on disk. -/
def envMissing : Env := { envOk with pathExists := fun _ => false }

/-- Fixture environment whose model artifact exists but fails to
parse/initialize (the loader raises). -/
def envBadArtifact : Env := { envOk with loadModel := fun _ => none }

/-- Fixture environment whose image decoder rejects every byte string. -/
def envNoDecode : Env := { envOk with imdecode := fun _ => none }

/-- Empty registry state (process start: nothing loaded). -/
def reg0 : RegState := { model := none, loadedPath := none }

/-- Registry state with a handle already cached for path `"pathA"`. -/
def regLoadedA : RegState := { model := some 7, loadedPath := some "pathA" }

/-- Initial server state: nothing loaded, gate idle, empty store, tick 0. -/
def st0 : ServerState := { reg := reg0, gateBusy := false, store := [], tick := 0 }

/-- Fixture request: a multipart `image` field with three bytes. -/
def reqImg : HttpRequest :=
  { files := [("image", [1, 2, 3])], isJson := false, frame := none, modelParam := none }

/-- Fixture request: a multipart `image` field holding zero bytes. -/
def reqEmptyImg : HttpRequest :=
  { files := [("image", [])], isJson := false, frame := none, modelParam := none }

/-- Fixture request carrying no image at all. -/
def reqNone : HttpRequest :=
  { files := [], isJson := false, frame := none, modelParam := none }

/-- Fixture request: a JSON `frame` data URL whose base64 payload has five
data characters, which is invalid padding (`b64decode` raises on it). -/
def reqBadB64 : HttpRequest :=
  { files := [], isJson := true, frame := some "data:image/jpeg;base64,AAAAA",
    modelParam := none }

/-! ### Helper lemmas -/

/-- Closed form of the `_append_rows` loop: row i of the batch is the i-th
detection stamped with the (tick + i)-th clock reading, and the clock
advances by the batch size. -/
lemma appendRows_eq (clock : Nat → Nat) (dets : List Detection) :
    ∀ (tick : Nat) (store : List AuditRow),
      appendRows clock tick store dets =
        (store ++ (List.range dets.length).zipWith
            (fun i d => stampRow (clock (tick + i)) d) dets,
         tick + dets.length) := by
  induction dets with
  | nil => intro tick store; simp [appendRows]
  | cons d rest ih =>
    intro tick store
    rw [appendRows, ih]
    simp only [List.length_cons, List.range_succ_eq_map, List.zipWith_cons_cons,
      List.zipWith_map_left, List.append_assoc, List.singleton_append, Nat.add_zero,
      Nat.add_succ, Nat.succ_add, Prod.mk.injEq]

/-- A bounded deque stays within its bound. -/
lemma length_dequePush_le (n : Nat) (d : List α) (x : α) (h : d.length ≤ n) :
    (dequePush n d x).length ≤ n := by
  simp only [dequePush]
  split
  · simp only [List.length_drop]
    omega
  · simp only [List.length_append, List.length_cons, List.length_nil] at *
    omega

/-- Folding a store through a deque bounded at `n` keeps exactly the last
`n` elements, in order. -/
lemma foldl_dequePush (n : Nat) (l : List α) :
    ∀ acc : List α, acc.length ≤ n →
      l.foldl (dequePush n) acc = (acc ++ l).drop (acc.length + l.length - n) := by
  induction l with
  | nil =>
    intro acc h
    have h0 : acc.length - n = 0 := by omega
    simp [h0]
  | cons x rest ih =>
    intro acc h
    rw [List.foldl_cons]
    by_cases hn : acc.length + 1 ≤ n
    · have hpush : dequePush n acc x = acc ++ [x] := by
        unfold dequePush
        rw [if_neg]
        simp
        omega
      rw [hpush, ih (acc ++ [x]) (by simp; omega)]
      have h1 : (acc ++ [x]) ++ rest = acc ++ x :: rest := by simp
      have h2 : (acc ++ [x]).length + rest.length - n =
          acc.length + (x :: rest).length - n := by simp; omega
      rw [h1, h2]
    · have hlen : acc.length = n := by omega
      have hpush : dequePush n acc x = (acc ++ [x]).drop 1 := by
        unfold dequePush
        rw [if_pos (by simp; omega)]
        congr 1
        simp [hlen]
      have hlen2 : ((acc ++ [x]).drop 1).length = n := by simp [hlen]
      rw [hpush, ih ((acc ++ [x]).drop 1) (by omega)]
      have h1 : (acc ++ [x]).drop 1 ++ rest = (acc ++ (x :: rest)).drop 1 := by
        rw [← List.drop_append_of_le_length (by simp : 1 ≤ (acc ++ [x]).length)]
        simp
      rw [h1, List.drop_drop, hlen2]
      congr 1
      simp
      omega

/-- The handler body never produces the busy response: busy is issued only
by the gate check before the body runs. -/
lemma detectBody_resp_ne_busy (env : Env) (req : HttpRequest) (st : ServerState) :
    (detectBody env req st).resp ≠ .busy := by
  simp only [detectBody]
  repeat' split
  all_goals simp

/-- A successful handler body appends exactly the detection batch to the
store (row i stamped with the (tick + i)-th clock reading) and advances
the clock tick by the batch size; an empty batch leaves the store
untouched. -/
lemma detectBody_success_store (env : Env) (req : HttpRequest) (st : ServerState)
    (dets : List Detection)
    (hs : (detectBody env req st).resp = .success dets) :
    (detectBody env req st).state.store =
      st.store ++ (List.range dets.length).zipWith
        (fun i d => stampRow (env.clock (st.tick + i)) d) dets ∧
    (detectBody env req st).state.tick = st.tick + dets.length := by
  simp only [detectBody] at hs ⊢
  repeat' split at hs <;> try simp_all [appendRows_eq]

/-- Each `_ensure_model_loaded` call invokes the loader at most once. -/
lemma ensure_loads_le_one (env : Env) (st : RegState) (p : String) :
    (ensureModelLoaded env st p).loads ≤ 1 := by
  simp only [ensureModelLoaded]
  repeat' split
  all_goals simp

/-- After a successful `_ensure_model_loaded` call the cache holds a handle
for the requested path (the fast-path test succeeds). -/
lemma ensure_ok_cacheHit (env : Env) (st : RegState) (p : String)
    (h : (ensureModelLoaded env st p).ok = true) :
    cacheHit (ensureModelLoaded env st p).state p = true := by
  simp only [ensureModelLoaded] at h ⊢
  repeat' split at h
  all_goals repeat' split
  all_goals simp_all [cacheHit]

/-! ### Claim theorems -/

/-- Claim C1 (confirmed): for every admitted `/detect` request — whatever
the outcome (success with detections, success with an empty list,
missing-image rejection, decode failure, model-load failure, inference
failure, extraction/parse failure, or an uncaught exception inside the
handler body) — the `finally:` release returns the gate to Idle, so a
subsequent request is never rejected as busy. -/
theorem C1_gate_released (env : Env) (req : HttpRequest) (st : ServerState)
    (hidle : st.gateBusy = false) :
    (detect env req st).state.gateBusy = false ∧
    ∀ (env2 : Env) (req2 : HttpRequest),
      (detect env2 req2 (detect env req st).state).resp ≠ .busy := by
  have h1 : (detect env req st).state.gateBusy = false := by
    simp [detect, hidle]
  refine ⟨h1, fun env2 req2 => ?_⟩
  generalize hst : (detect env req st).state = st2 at h1
  simp only [detect, h1, Bool.false_eq_true, if_false]
  exact detectBody_resp_ne_busy env2 req2 _

/-- Witness for C1 at a concrete admitted request. -/
theorem C1_gate_released_witness :
    st0.gateBusy = false ∧ (detect envOk reqImg st0).state.gateBusy = false :=
  ⟨rfl, (C1_gate_released envOk reqImg st0 rfl).1⟩

/-- Counterexample to claim C3 as stated: `_append_rows` calls
`datetime.now()` once per row, so when the wall clock ticks between two
writes (the fixture clock advances on every reading) a successful batch
of two detections is logged with two different timestamps — not one
shared timestamp value on all rows. -/
theorem C3_counterexample :
    (detect envOk reqImg st0).resp = .success [det1, det2] ∧
    (detect envOk reqImg st0).state.store.map AuditRow.time = [0, 1] ∧
    (0 : Nat) ≠ 1 :=
  ⟨rfl, by decide, by decide⟩

/-- Claim C3 (amended): a successful `/detect` request with detection list
of size k appends exactly k rows as one batch — row i carrying the
timestamp of the i-th `now()` reading made during the batch (one shared
value only when the clock does not tick mid-batch) and the matching
class_id, confidence and bbox of detection i — and advances the clock
tick by k; an empty detection list appends zero rows. -/
theorem C3_batch_append (env : Env) (req : HttpRequest) (st : ServerState)
    (dets : List Detection) (hidle : st.gateBusy = false)
    (hs : (detect env req st).resp = .success dets) :
    (detect env req st).state.store =
      st.store ++ (List.range dets.length).zipWith
        (fun i d => stampRow (env.clock (st.tick + i)) d) dets ∧
    (detect env req st).state.tick = st.tick + dets.length := by
  simp only [detect, hidle, Bool.false_eq_true, if_false] at hs ⊢
  exact detectBody_success_store env req { st with gateBusy := true } dets hs

/-- Witness for the amended C3 at a concrete successful two-detection
request. -/
theorem C3_batch_append_witness :
    st0.gateBusy = false ∧
    (detect envOk reqImg st0).resp = .success [det1, det2] ∧
    (detect envOk reqImg st0).state.tick = st0.tick + 2 :=
  ⟨rfl, rfl, (C3_batch_append envOk reqImg st0 [det1, det2] rfl rfl).2⟩

/-- Claim C8 (confirmed): the `/csv` tail view reads the whole store and
keeps exactly the last 200 rows in insertion order — it equals the store
with all but the last 200 rows dropped, its length is min(store length,
200), and a store of at most 200 rows is shown in full. -/
theorem C8_tail_last_200 (store : List AuditRow) :
    csvViewRows store = store.drop (store.length - 200) ∧
    (csvViewRows store).length = min store.length 200 ∧
    (store.length ≤ 200 → csvViewRows store = store) := by
  have h := foldl_dequePush 200 store [] (by simp)
  simp only [List.nil_append, List.length_nil, Nat.zero_add] at h
  rw [csvViewRows] at *
  refine ⟨h, ?_, ?_⟩
  · rw [h, List.length_drop]
    omega
  · intro hle
    rw [h]
    have h0 : store.length - 200 = 0 := by omega
    simp [h0]

/-- Witness for C8's at-most-200 branch on a concrete one-row store. -/
theorem C8_tail_witness :
    ([stampRow 0 det1].length ≤ 200) ∧
    csvViewRows [stampRow 0 det1] = [stampRow 0 det1] :=
  ⟨by simp, (C8_tail_last_200 [stampRow 0 det1]).2.2 (by simp)⟩

/-- Counterexample to claim C2 as stated: when `ensure_loaded` fails
because the target path does not exist, the early return (lines 53-55)
does NOT clear the registry cache — a handle loaded earlier for a
different path remains cached, contradicting "holds no handle at
all". -/
theorem C2_counterexample :
    (ensureModelLoaded envMissing regLoadedA "pathB").ok = false ∧
    (ensureModelLoaded envMissing regLoadedA "pathB").state.model = some 7 ∧
    some 7 ≠ (none : Option Nat) :=
  ⟨by decide, by decide, by decide⟩

/-- Claim C2 (amended): when `ensure_loaded` fails because the model
artifact cannot be parsed/initialized (the loader raises), the cached
state is cleared — no handle and no path remain — so the next request
retries a real load; but when it fails because the path does not exist
on disk, the cached state is left exactly as it was, so a stale handle
from an earlier load of a different path can remain. -/
theorem C2_failed_load_cache (env : Env) (st : RegState) (p : String)
    (hmiss : cacheHit st p = false) :
    (env.pathExists p = true → env.loadModel p = none →
      (ensureModelLoaded env st p).ok = false ∧
      (ensureModelLoaded env st p).state.model = none ∧
      (ensureModelLoaded env st p).state.loadedPath = none) ∧
    (env.pathExists p = false →
      (ensureModelLoaded env st p).ok = false ∧
      (ensureModelLoaded env st p).state = st) := by
  constructor
  · intro hex hload
    simp [ensureModelLoaded, hmiss, hex, hload]
  · intro hex
    simp [ensureModelLoaded, hmiss, hex]

/-- Witness for the amended C2: a stale cache for `"pathA"`, a load of
`"pathB"` whose artifact fails to parse — afterwards the cache holds no
handle. -/
theorem C2_failed_load_cache_witness :
    cacheHit regLoadedA "pathB" = false ∧
    envBadArtifact.pathExists "pathB" = true ∧
    envBadArtifact.loadModel "pathB" = none ∧
    (ensureModelLoaded envBadArtifact regLoadedA "pathB").state.model = none :=
  ⟨by decide, by decide, by decide,
    ((C2_failed_load_cache envBadArtifact regLoadedA "pathB" (by decide)).1
      (by decide) (by decide)).2.1⟩

/-- Counterexample to claim C4 as stated: the handler checks model
availability before reading the image, so an admitted request carrying
no image at all is answered 503 (model unavailable), not 400, when the
model path does not exist — the missing-image rejection is not issued
"regardless of whether the model is available or can be loaded". -/
theorem C4_counterexample :
    readImageBytes reqNone = .ok none ∧
    (detect envMissing reqNone st0).resp = .modelUnavailable "models/best.pt" ∧
    statusOf (detect envMissing reqNone st0).resp = 503 ∧
    (503 : Nat) ≠ 400 :=
  ⟨rfl, rfl, rfl, by decide⟩

/-- Claim C4 (amended): an admitted `/detect` request from which no image
bytes can be extracted is rejected with the 400 missing-image client
error provided the resolved model is available (ensure-loaded
succeeds); the model check precedes image extraction in the handler, so
when the model cannot be loaded the 503 outcome takes precedence. -/
theorem C4_no_image_400 (env : Env) (req : HttpRequest) (st : ServerState)
    (hidle : st.gateBusy = false)
    (hm : (ensureModelLoaded env st.reg (resolveModelPath env req.modelParam)).ok = true)
    (hb : readImageBytes req = .ok none) :
    (detect env req st).resp = .noImage ∧
    statusOf (detect env req st).resp = 400 := by
  have h : (detect env req st).resp = .noImage := by
    simp [detect, detectBody, hidle, hm, hb]
  exact ⟨h, by rw [h]; rfl⟩

/-- Witness for the amended C4: model available, no image extractable,
response is the 400 missing-image error. -/
theorem C4_no_image_400_witness :
    (ensureModelLoaded envOk st0.reg (resolveModelPath envOk reqNone.modelParam)).ok = true ∧
    (detect envOk reqNone st0).resp = .noImage :=
  ⟨by decide, (C4_no_image_400 envOk reqNone st0 rfl (by decide) rfl).1⟩

/-- Counterexample to claim C5 as stated: a JSON `frame` whose base64
payload is malformed (five data characters — invalid padding) makes
`base64.b64decode` raise an uncaught `binascii.Error`, so the response
is a 500 server fault, not a 400 client error. -/
theorem C5_counterexample :
    (detect envOk reqBadB64 st0).resp = .internalError ∧
    statusOf (detect envOk reqBadB64 st0).resp = 500 ∧
    (500 : Nat) ≠ 400 :=
  ⟨by decide, by decide, by decide⟩

/-- Claim C5 (amended): an admitted request (model available) whose
extracted image bytes are non-empty but cannot be decoded into a pixel
matrix is answered 400 (decode failure) — a client error, not a server
fault.  A JSON `frame` whose base64 payload itself is malformed never
reaches the decoder: `b64decode` raises and the request ends in a
500. -/
theorem C5_undecodable_400 (env : Env) (req : HttpRequest) (st : ServerState)
    (bs : Bytes) (hidle : st.gateBusy = false)
    (hm : (ensureModelLoaded env st.reg (resolveModelPath env req.modelParam)).ok = true)
    (hb : readImageBytes req = .ok (some bs)) (hne : bs ≠ [])
    (hd : env.imdecode bs = none) :
    (detect env req st).resp = .decodeFailed ∧
    statusOf (detect env req st).resp = 400 := by
  have hbe : bs.isEmpty = false := by
    cases bs with
    | nil => exact absurd rfl hne
    | cons a l => rfl
  have h : (detect env req st).resp = .decodeFailed := by
    simp [detect, detectBody, hidle, hm, hb, hbe, hd]
  exact ⟨h, by rw [h]; rfl⟩

/-- Witness for the amended C5: three bytes that the decoder rejects give
the 400 decode-failure response. -/
theorem C5_undecodable_400_witness :
    readImageBytes reqImg = .ok (some [1, 2, 3]) ∧
    envNoDecode.imdecode [1, 2, 3] = none ∧
    (detect envNoDecode reqImg st0).resp = .decodeFailed :=
  ⟨rfl, rfl, (C5_undecodable_400 envNoDecode reqImg st0 [1, 2, 3] rfl (by decide) rfl
    (by decide) rfl).1⟩

/-- Counterexample to claim C6 as stated: with a model artifact that
exists on disk but fails to parse/initialize, two sequential
`ensure_loaded` calls with the same path invoke the loader twice —
refuting "at most one actual load" for every path. -/
theorem C6_counterexample :
    (ensureModelLoaded envBadArtifact reg0 "pathA").loads +
      (ensureModelLoaded envBadArtifact
        (ensureModelLoaded envBadArtifact reg0 "pathA").state "pathA").loads = 2 ∧
    ¬ (2 ≤ 1) :=
  ⟨by decide, by decide⟩

/-- Claim C6 (amended): `ensure_loaded` is idempotent across successful
calls: every call invokes the loader at most once, and once `(p,
handle)` is cached — i.e. after any successful call for p — the next
call with p returns success on the unsynchronized fast path, with no
loader invocation and no `_model_lock` acquisition, so two sequential
calls whose first succeeds perform at most one actual load.  After a
failed parse/init the load is re-attempted by the next call (by design,
so a fixed artifact can be picked up). -/
theorem C6_ensure_loaded_idempotent (env : Env) (st : RegState) (p : String)
    (h : (ensureModelLoaded env st p).ok = true) :
    (ensureModelLoaded env (ensureModelLoaded env st p).state p).ok = true ∧
    (ensureModelLoaded env (ensureModelLoaded env st p).state p).loads = 0 ∧
    (ensureModelLoaded env (ensureModelLoaded env st p).state p).lockAcquires = 0 ∧
    (ensureModelLoaded env st p).loads +
      (ensureModelLoaded env (ensureModelLoaded env st p).state p).loads ≤ 1 := by
  have hc := ensure_ok_cacheHit env st p h
  have h2 : ensureModelLoaded env (ensureModelLoaded env st p).state p =
      { ok := true, state := (ensureModelLoaded env st p).state,
        loads := 0, lockAcquires := 0 } := by
    generalize (ensureModelLoaded env st p).state = st1 at hc ⊢
    simp only [ensureModelLoaded]
    rw [if_pos hc]
  rw [h2]
  refine ⟨rfl, rfl, rfl, ?_⟩
  have h3 := ensure_loads_le_one env st p
  show (ensureModelLoaded env st p).loads + 0 ≤ 1
  omega

/-- Witness for the amended C6: a successful first load, then a lock-free,
load-free fast path. -/
theorem C6_ensure_loaded_idempotent_witness :
    (ensureModelLoaded envOk reg0 "models/best.pt").ok = true ∧
    (ensureModelLoaded envOk
      (ensureModelLoaded envOk reg0 "models/best.pt").state "models/best.pt").loads = 0 ∧
    (ensureModelLoaded envOk
      (ensureModelLoaded envOk reg0 "models/best.pt").state "models/best.pt").lockAcquires
      = 0 :=
  ⟨by decide,
    (C6_ensure_loaded_idempotent envOk reg0 "models/best.pt" (by decide)).2.1,
    (C6_ensure_loaded_idempotent envOk reg0 "models/best.pt" (by decide)).2.2.1⟩

/-- Counterexample to claim C7 as stated: `int(h * scale)` truncates, it
does not round to nearest.  A 640×481 image has scale exactly 0.75 and
exact scaled height 360.75 (exactly representable in floating point, so
the rational model agrees with the code): the code resizes to height
360, while rounding 481·480/640 gives 361. -/
theorem C7_counterexample :
    (boundWidth { width := 640, height := 481 }).height = 360 ∧
    round ((481 : ℚ) * 480 / 640) = 361 ∧
    (360 : Nat) ≠ 361 :=
  ⟨by decide, by norm_num [round_eq], by decide⟩

/-- Claim C7 (amended): preprocessing is the identity on dimensions for
every image of width at most 480; an image wider than 480 is resized
with area interpolation to width exactly 480 and height scaled by the
same factor 480/w truncated to an integer (floor, not
round-to-nearest): the new height is the integer at most the exact
scaled height and within 1 of it. -/
theorem C7_bound_width (img : Image) :
    (img.width ≤ 480 → boundWidth img = img) ∧
    (480 < img.width →
      (boundWidth img).width = 480 ∧
      ((boundWidth img).height : ℚ) ≤ (img.height : ℚ) * 480 / (img.width : ℚ) ∧
      (img.height : ℚ) * 480 / (img.width : ℚ) - 1 < ((boundWidth img).height : ℚ)) := by
  constructor
  · intro h
    simp [boundWidth, Nat.not_lt.mpr h]
  · intro h
    have hfl : (boundWidth img).height = ⌊((img.height * 480 : ℕ) : ℚ) / ((img.width : ℕ) : ℚ)⌋₊ := by
      rw [Nat.floor_div_eq_div]
      simp [boundWidth, h]
    have hkey : ((img.height * 480 : ℕ) : ℚ) / ((img.width : ℕ) : ℚ) =
        (img.height : ℚ) * 480 / (img.width : ℚ) := by
      push_cast
      ring
    refine ⟨by simp [boundWidth, h], ?_, ?_⟩
    · rw [hfl, ← hkey]
      exact Nat.floor_le (by positivity)
    · rw [hfl, ← hkey]
      exact Nat.sub_one_lt_floor _

/-- Witness for the amended C7, both branches: a 320-wide image passes
through unchanged; a 640×481 image becomes 480 wide. -/
theorem C7_bound_width_witness :
    ((320 : Nat) ≤ 480 ∧ boundWidth { width := 320, height := 200 } = { width := 320, height := 200 }) ∧
    (480 < (640 : Nat) ∧ (boundWidth { width := 640, height := 481 }).width = 480) :=
  ⟨⟨by decide, (C7_bound_width { width := 320, height := 200 }).1 (by decide)⟩,
    ⟨by decide, ((C7_bound_width { width := 640, height := 481 }).2 (by decide)).1⟩⟩

/-- Counterexample to claim C9 as stated: `csv_download` synthesizes a
header only when the store file is absent; a store file that exists but
holds zero records is sent verbatim — an empty table, not one header
row and zero data rows. -/
theorem C9_counterexample :
    csvDownload (some []) = [] ∧
    ([] : List (List String)) ≠ [headerRow] := by
  constructor
  · rfl
  · simp [headerRow]

/-- Claim C9 (amended): exporting an absent audit store yields exactly one
header row (`time, class_id, confidence, x1, y1, x2, y2`) and zero data
rows; an existing store file is returned verbatim with no synthesized
header (so an existing-but-empty file exports as zero rows — a state
the gateway itself never creates, since `_append_rows` is only invoked
with a non-empty batch and then writes exactly its rows). -/
theorem C9_empty_export (clock : Nat → Nat) (tick : Nat) (store : List AuditRow)
    (dets : List Detection) :
    csvDownload none = [headerRow] ∧
    csvDownload (some []) = [] ∧
    (appendRows clock tick store dets).1.length = store.length + dets.length := by
  refine ⟨rfl, rfl, ?_⟩
  rw [appendRows_eq]
  simp

/-- Claim C10 (confirmed): a multipart request whose `image` (or `file`)
field is present but holds zero bytes is handled by the falsiness test
`if not img_bytes` exactly like a request with no image at all: the
whole request outcome equals that of the image-less request, and (with
the model available) it is rejected with the 400 "No image provided"
error while the decoder is never invoked on the zero-byte payload. -/
theorem C10_empty_file_field (env : Env) (req : HttpRequest) (st : ServerState)
    (hidle : st.gateBusy = false)
    (hm : (ensureModelLoaded env st.reg (resolveModelPath env req.modelParam)).ok = true)
    (hf : lookupFile req "image" = some [] ∨
      (lookupFile req "image" = none ∧ lookupFile req "file" = some [])) :
    (detect env req st).resp = .noImage ∧
    statusOf (detect env req st).resp = 400 ∧
    (detect env req st).decodeCalls = 0 ∧
    detect env req st = detect env (stripImage req) st := by
  have hb : readImageBytes req = .ok (some []) := by
    rcases hf with h | ⟨h1, h2⟩
    · simp [readImageBytes, h]
    · simp [readImageBytes, h1, h2]
  have hb2 : readImageBytes
      { files := [], isJson := false, frame := none, modelParam := req.modelParam } =
      .ok none := by
    simp [readImageBytes, lookupFile]
  have h : (detect env req st).resp = .noImage := by
    simp [detect, detectBody, hidle, hm, hb]
  refine ⟨h, by rw [h]; rfl, ?_, ?_⟩
  · simp [detect, detectBody, hidle, hm, hb]
  · simp only [detect, hidle, Bool.false_eq_true, if_false]
    simp [detectBody, stripImage, hm, hb, hb2]

/-- Witness for C10 at a zero-byte `image` field. -/
theorem C10_empty_file_field_witness :
    lookupFile reqEmptyImg "image" = some [] ∧
    (detect envOk reqEmptyImg st0).resp = .noImage ∧
    (detect envOk reqEmptyImg st0).decodeCalls = 0 :=
  ⟨by decide,
    (C10_empty_file_field envOk reqEmptyImg st0 rfl (by decide) (Or.inl (by decide))).1,
    (C10_empty_file_field envOk reqEmptyImg st0 rfl (by decide) (Or.inl (by decide))).2.2.1⟩

end UmiNoMe
